import Mathlib

/-!
Shallow embedding of the smart-planner repository's core logic
(src/lib/notificationService.ts, src/lib/storage.ts, src/lib/chatbotService.ts,
src/lib/aiService.ts, src/lib/aiSuggestions.ts) together with proofs of the
frozen claims about it.

Modelling conventions:
* JavaScript numbers appearing in this code are either NaN or (here) integers;
  they are modelled by `JSNum`.  All arithmetic and comparisons propagate NaN
  exactly as in JavaScript (any comparison against NaN is false).
* JavaScript `Date` values are modelled as milliseconds since the epoch in a
  fixed-offset timezone with no DST (an `Int` inside `JSNum`); an invalid
  `Date` is `JSNum.nan`.  `Date.prototype.setHours(h, m, 0, 0)` becomes
  arithmetic from the start of the current day; `setDate(getDate() + 1)` on a
  valid date adds exactly one calendar day (86400000 ms) in this model, and
  leaves an invalid date invalid.
* The numeric literals fed to `Number(...)` / `parseInt(...)` in this codebase
  are decimal integer strings; the models `jsNumber` / `jsParseInt` cover
  exactly decimal integers (with sign), everything else is NaN.
* String operations are modelled on `List Char`; all strings involved are
  ASCII, so JavaScript's UTF-16 lengths and Lean's character counts agree.
-/

/-- JavaScript numbers as used by this codebase: an integer or NaN. -/
inductive JSNum where
  | nan : JSNum
  | num : Int → JSNum
deriving DecidableEq, Repr

namespace JSNum

/-- JavaScript `+` on numbers: NaN-propagating addition. -/
def add : JSNum → JSNum → JSNum
  | num a, num b => num (a + b)
  | _, _ => nan

/-- JavaScript `-` on numbers: NaN-propagating subtraction. -/
def sub : JSNum → JSNum → JSNum
  | num a, num b => num (a - b)
  | _, _ => nan

/-- JavaScript `===` between numbers: NaN is equal to nothing. -/
def seq : JSNum → JSNum → Bool
  | num a, num b => a == b
  | _, _ => false

/-- JavaScript `<=` between numbers: any comparison with NaN is false. -/
def le : JSNum → JSNum → Bool
  | num a, num b => a ≤ b
  | _, _ => false

/-- JavaScript `<` between numbers: any comparison with NaN is false. -/
def lt : JSNum → JSNum → Bool
  | num a, num b => a < b
  | _, _ => false

/-- JavaScript `>=` between numbers: any comparison with NaN is false. -/
def ge : JSNum → JSNum → Bool
  | num a, num b => b ≤ a
  | _, _ => false

end JSNum

/-- Splits a character list at every occurrence of `sep`, keeping empty
segments — the semantics of JavaScript `String.prototype.split` with a
single-character separator. -/
def splitChars (sep : Char) : List Char → List (List Char)
  | [] => [[]]
  | c :: rest =>
    let r := splitChars sep rest
    if c == sep then [] :: r
    else
      match r with
      | [] => [[c]]
      | g :: gs => (c :: g) :: gs

/-- JavaScript `s.split(sep)` for a one-character separator. -/
def jsSplit (sep : Char) (s : String) : List String :=
  (splitChars sep s.data).map String.mk

/-- ASCII lower-casing of one character (JavaScript `toLowerCase` restricted to
the ASCII strings this codebase handles). -/
def lowerChar (c : Char) : Char :=
  if 'A' ≤ c ∧ c ≤ 'Z' then Char.ofNat (c.toNat + 32) else c

/-- ASCII upper-casing of one character (JavaScript `toUpperCase`). -/
def upperChar (c : Char) : Char :=
  if 'a' ≤ c ∧ c ≤ 'z' then Char.ofNat (c.toNat - 32) else c

/-- JavaScript `s.toLowerCase()` on the ASCII strings this codebase handles. -/
def jsToLower (s : String) : String :=
  String.mk (s.data.map lowerChar)

/-- Whitespace test used by JavaScript `trim` / `\s` for the ASCII range. -/
def isWsChar (c : Char) : Bool :=
  c == ' ' ∨ c == '\t' ∨ c == '\n' ∨ c == '\r'

/-- JavaScript `s.trim()`. -/
def jsTrim (s : String) : String :=
  String.mk (((s.data.dropWhile isWsChar).reverse.dropWhile isWsChar).reverse)

/-- Whether `pre` is a prefix of `l` (character-exact). -/
def isPrefixChars : List Char → List Char → Bool
  | [], _ => true
  | _ :: _, [] => false
  | a :: as, b :: bs => a == b && isPrefixChars as bs

/-- Whether `needle` occurs as a contiguous substring of `hay` — JavaScript
`hay.includes(needle)` / an unanchored regex literal match. -/
def containsChars (needle : List Char) : List Char → Bool
  | [] => needle.isEmpty
  | c :: rest => isPrefixChars needle (c :: rest) || containsChars needle rest

/-- JavaScript `hay.includes(needle)`. -/
def jsIncludes (hay needle : String) : Bool :=
  containsChars needle.data hay.data

/-- JavaScript `s.startsWith(pre)`. -/
def jsStartsWith (s pre : String) : Bool :=
  isPrefixChars pre.data s.data

/-- Numeric value of a list of decimal digits. -/
def digitsVal (l : List Char) : Nat :=
  l.foldl (fun a c => 10 * a + (c.toNat - 48)) 0

/-- JavaScript `Number(s)` restricted to the decimal integer literals this
codebase produces: the empty (trimmed) string is 0, an optionally signed
digit string is its value, anything else is NaN. -/
def jsNumber (s : String) : JSNum :=
  let t := (jsTrim s).data
  match t with
  | [] => JSNum.num 0
  | '-' :: rest =>
    if rest ≠ [] ∧ rest.all Char.isDigit then JSNum.num (-(digitsVal rest : Int)) else JSNum.nan
  | '+' :: rest =>
    if rest ≠ [] ∧ rest.all Char.isDigit then JSNum.num (digitsVal rest) else JSNum.nan
  | l =>
    if l.all Char.isDigit then JSNum.num (digitsVal l) else JSNum.nan

/-- JavaScript `parseInt(s)` restricted to decimal inputs: the longest digit
prefix (after trimming, with optional sign) is converted; no digits is NaN. -/
def jsParseInt (s : String) : JSNum :=
  let t := (jsTrim s).data
  let core : List Char × Bool :=
    match t with
    | '-' :: rest => (rest, true)
    | '+' :: rest => (rest, false)
    | l => (l, false)
  let digits := core.1.takeWhile Char.isDigit
  if digits = [] then JSNum.nan
  else if core.2 then JSNum.num (-(digitsVal digits : Int)) else JSNum.num (digitsVal digits)

/-- Milliseconds in one day. -/
def msPerDay : Nat := 86400000

/-- Start of the current day for an instant `now` (ms since epoch), in the
fixed-offset no-DST timezone of the model. -/
def dayStart (now : Nat) : Nat := now - now % msPerDay

/-- Model of `d.setHours(h, m, 0, 0)` on a `Date` freshly constructed at
instant `now`: today's day start plus the given hours and minutes.  A NaN
hour or minute component yields an invalid date, exactly as in JavaScript;
out-of-range numeric components roll over through the timestamp arithmetic. -/
def jsSetHours (now : Nat) (h m : JSNum) : JSNum :=
  match h, m with
  | JSNum.num h, JSNum.num m => JSNum.num ((dayStart now : Int) + h * 3600000 + m * 60000)
  | _, _ => JSNum.nan

/-- The string-processing half of NotificationService.parseTaskTime
(src/lib/notificationService.ts:159-160): `const [time, period] =
timeString.split(' ')` and `const [hours, minutes] =
time.split(':').map(Number)`.  Returns (hours, minutes, period); a missing
destructuring component is `undefined` in JavaScript and is modelled as the
NaN it becomes in the later arithmetic (for hours/minutes) or `none` (for
the period string). -/
def parsedPieces (timeString : String) : JSNum × JSNum × Option String :=
  let parts := jsSplit ' ' timeString
  let timePart := parts.headD ""
  let period : Option String := parts[1]?
  let tparts := (jsSplit ':' timePart).map jsNumber
  (tparts.headD JSNum.nan, tparts[1]?.getD JSNum.nan, period)

/-- The date-arithmetic half of NotificationService.parseTaskTime
(src/lib/notificationService.ts:162-178): AM/PM adjustment (`hours !== 12`
is true for NaN), `setHours` on a date constructed at `now`, and the
roll-forward by one day when the instant is not strictly after `now`
(an invalid date fails the `<=` comparison and is returned as is). -/
def parseCore (now : Nat) (p : JSNum × JSNum × Option String) : Option JSNum :=
  let hours := p.1
  let minutes := p.2.1
  let period := p.2.2
  let hour24 :=
    if period == some "PM" && !(hours.seq (JSNum.num 12)) then hours.add (JSNum.num 12)
    else if period == some "AM" && hours.seq (JSNum.num 12) then JSNum.num 0
    else hours
  let taskDate := jsSetHours now hour24 minutes
  let taskDate :=
    if taskDate.le (JSNum.num now) then taskDate.add (JSNum.num msPerDay) else taskDate
  some taskDate

/-- NotificationService.parseTaskTime (src/lib/notificationService.ts:156-183),
the composition of the two halves above.  `now` is the current instant in
ms.  The returned `Option` is the `Date | null` result type: `none` is the
`catch` branch's `null`, which no string input can reach (splitting,
`Number` conversion and `Date` arithmetic never throw), and `some d` is the
returned `Date` (`JSNum.nan` = invalid Date). -/
def parseTaskTime (now : Nat) (timeString : String) : Option JSNum :=
  parseCore now (parsedPieces timeString)

/-- The platform the app runs on (`Platform.OS === 'web'` vs mobile). -/
inductive JSPlatform where
  | web : JSPlatform
  | mobile : JSPlatform
deriving DecidableEq, Repr

/-- A task record (src/types/task.ts).  Timestamps are ms since epoch;
optional fields are `Option`. -/
structure PlannerTask where
  id : String
  title : String
  description : Option String := none
  taskTime : String
  completed : Bool := false
  completedAt : Option Nat := none
  priority : String := "medium"
  category : String := "Personal"
  createdAt : Nat := 0
  notificationId : Option String := none
deriving DecidableEq, Repr

/-- JavaScript truthiness of an optional string field (`undefined` and the
empty string are falsy). -/
def truthyStr : Option String → Bool
  | none => false
  | some s => s ≠ ""

/-- The `scheduledTimeouts` map of NotificationService: notification id to the
pending timer.  The stored value is the model of the timer object — the
instant (possibly NaN) at which it would fire; a timer object is always
truthy in JavaScript, so only presence in the map matters. -/
abbrev TimeoutMap := List (String × JSNum)

/-- JavaScript `Map.prototype.get` (maps hold at most one binding per key). -/
def mapGet (m : TimeoutMap) (k : String) : Option JSNum :=
  match m.find? (fun e => e.1 == k) with
  | some e => some e.2
  | none => none

/-- JavaScript `Map.prototype.set`: replace an existing binding, else append. -/
def mapSet (m : TimeoutMap) (k : String) (v : JSNum) : TimeoutMap :=
  if (m.find? (fun e => e.1 == k)).isSome then
    m.map (fun e => if e.1 == k then (k, v) else e)
  else m ++ [(k, v)]

/-- JavaScript `Map.prototype.delete`: remove the binding for `k`. -/
def mapDelete (m : TimeoutMap) (k : String) : TimeoutMap :=
  m.filter (fun e => !(e.1 == k))

/-- Result of `scheduleTaskNotification` / `scheduleWebNotification`:
the returned id (`null` = `none`), the updated `scheduledTimeouts` map, and —
when an id is returned — the `notificationTime` instant the reminder is
associated with. -/
structure ScheduleResult where
  handle : Option String
  timeouts : TimeoutMap
  instant : Option JSNum
deriving DecidableEq, Repr

/-- NotificationService.scheduleWebNotification
(src/lib/notificationService.ts:68-121): compute the delay, reject
non-positive delays, register a timeout under a fresh `web_` id and return
that id. -/
def scheduleWebNotification (now : Nat) (timeouts : TimeoutMap) (task : PlannerTask)
    (notificationTime : JSNum) : ScheduleResult :=
  let timeUntil := notificationTime.sub (JSNum.num now)
  if timeUntil.le (JSNum.num 0) then
    ⟨none, timeouts, none⟩
  else
    let nid := "web_" ++ task.id ++ "_" ++ toString now
    ⟨some nid, mapSet timeouts nid notificationTime, some notificationTime⟩

/-- NotificationService.scheduleTaskNotification
(src/lib/notificationService.ts:41-66).  `hasPermission` is the result of
`requestPermissions()`; `now` stands for both `new Date()` calls of the
source (a single-instant model of the synchronous call).  A `Date` object is
always truthy, so the `!notificationTime` test only fires on `null`; an
invalid date fails the `<=` comparison and falls through, as in JavaScript. -/
def scheduleTaskNotification (platform : JSPlatform) (hasPermission : Bool) (now : Nat)
    (timeouts : TimeoutMap) (task : PlannerTask) : ScheduleResult :=
  if !hasPermission then ⟨none, timeouts, none⟩
  else
    match parseTaskTime now task.taskTime with
    | none => ⟨none, timeouts, none⟩
    | some d =>
      if d.le (JSNum.num now) then ⟨none, timeouts, none⟩
      else
        match platform with
        | JSPlatform.web => scheduleWebNotification now timeouts task d
        | JSPlatform.mobile => ⟨some ("mobile_" ++ task.id ++ "_" ++ toString now), timeouts, some d⟩

/-- NotificationService.cancelNotification
(src/lib/notificationService.ts:123-140): for a `web_` id, clear and remove
the pending timeout if one is tracked; `mobile_` ids and unknown ids only
log.  The whole body is wrapped in try/catch and nothing in it throws, so the
model is a total function on the timeout map. -/
def cancelNotification (notificationId : String) (timeouts : TimeoutMap) : TimeoutMap :=
  if jsStartsWith notificationId "web_" then
    match mapGet timeouts notificationId with
    | some _ => mapDelete timeouts notificationId
    | none => timeouts
  else timeouts

/-- The persisted task-store state (the two AsyncStorage collections) together
with the notification service's in-process timeout map. -/
structure AppState where
  tasks : List PlannerTask
  completedTasks : List PlannerTask
  timeouts : TimeoutMap
deriving DecidableEq, Repr

/-- JavaScript `findIndex` followed by `splice(index, 1)`: locate the first
element satisfying `p` and return it together with the list with that one
occurrence removed. -/
def extractFirst (p : PlannerTask → Bool) : List PlannerTask →
    Option (PlannerTask × List PlannerTask)
  | [] => none
  | t :: rest =>
    if p t then some (t, rest)
    else (extractFirst p rest).map (fun x => (x.1, t :: x.2))

/-- TaskStorage.completeTask (src/lib/storage.ts:74-96): find the task by id
in the active collection; if present, set its completion flag and timestamp,
cancel its notification when it has a (truthy) id, append it to the completed
collection and remove it from the active one.  An absent id changes nothing
(not even a save). -/
def completeTask (now : Nat) (st : AppState) (taskId : String) : AppState :=
  match extractFirst (fun t => t.id == taskId) st.tasks with
  | none => st
  | some (t, rest) =>
    let t := { t with completed := true, completedAt := some now }
    let timeouts :=
      match t.notificationId with
      | some nid => if nid ≠ "" then cancelNotification nid st.timeouts else st.timeouts
      | none => st.timeouts
    { tasks := rest, completedTasks := st.completedTasks ++ [t], timeouts := timeouts }

/-- TaskStorage.deleteTask (src/lib/storage.ts:98-109): cancel the found
task's notification when it has a (truthy) id, then save the active
collection filtered to the other ids.  The completed collection is not
touched. -/
def deleteTask (st : AppState) (taskId : String) : AppState :=
  let timeouts :=
    match st.tasks.find? (fun t => t.id == taskId) with
    | some t =>
      match t.notificationId with
      | some nid => if nid ≠ "" then cancelNotification nid st.timeouts else st.timeouts
      | none => st.timeouts
    | none => st.timeouts
  { st with tasks := st.tasks.filter (fun t => !(t.id == taskId)), timeouts := timeouts }

/-- A `Partial<Task>` updates object: `some` marks a present key, whose value
replaces the task's field on spread-merge. -/
structure TaskUpdates where
  updId : Option String := none
  updTitle : Option String := none
  updDescription : Option (Option String) := none
  updTime : Option String := none
  updCompleted : Option Bool := none
  updCompletedAt : Option (Option Nat) := none
  updPriority : Option String := none
  updCategory : Option String := none
  updCreatedAt : Option Nat := none
  updNotificationId : Option (Option String) := none
deriving DecidableEq, Repr

/-- JavaScript `{ ...currentTask, ...updates }`: every key present in
`updates` overrides the task's field. -/
def mergeTask (t : PlannerTask) (u : TaskUpdates) : PlannerTask :=
  { id := u.updId.getD t.id
    title := u.updTitle.getD t.title
    description := u.updDescription.getD t.description
    taskTime := u.updTime.getD t.taskTime
    completed := u.updCompleted.getD t.completed
    completedAt := u.updCompletedAt.getD t.completedAt
    priority := u.updPriority.getD t.priority
    category := u.updCategory.getD t.category
    createdAt := u.updCreatedAt.getD t.createdAt
    notificationId := u.updNotificationId.getD t.notificationId }

/-- The found-index branch of TaskStorage.updateTask applied along the active
list: the first task whose id matches is updated in place (the JavaScript
`tasks[taskIndex] = { ...currentTask, ...updates }`), later tasks are kept.
Returns the updated list and timeout map. -/
def updateTaskGo (platform : JSPlatform) (hasPermission : Bool) (now : Nat)
    (taskId : String) (u : TaskUpdates) (timeouts : TimeoutMap) :
    List PlannerTask → List PlannerTask × TimeoutMap
  | [] => ([], timeouts)
  | t :: rest =>
    if t.id == taskId then
      let timeAndDiffers := truthyStr u.updTime && !(u.updTime == some t.taskTime)
      let timeouts1 :=
        if timeAndDiffers then
          match t.notificationId with
          | some nid => if nid ≠ "" then cancelNotification nid timeouts else timeouts
          | none => timeouts
        else timeouts
      let afterSchedule :=
        if timeAndDiffers then
          let updatedTask := mergeTask t u
          let res := scheduleTaskNotification platform hasPermission now timeouts1 updatedTask
          match res.handle with
          | some nid => ({ u with updNotificationId := some (some nid) }, res.timeouts)
          | none => (u, res.timeouts)
        else (u, timeouts1)
      (mergeTask t afterSchedule.1 :: rest, afterSchedule.2)
    else
      let r := updateTaskGo platform hasPermission now taskId u timeouts rest
      (t :: r.1, r.2)

/-- TaskStorage.updateTask (src/lib/storage.ts:111-135): when the id is found,
optionally reschedule the notification (only when a truthy, different time is
part of the updates) and merge the updates into the stored task; an absent id
changes nothing.  The completed collection is never touched. -/
def updateTask (platform : JSPlatform) (hasPermission : Bool) (now : Nat)
    (st : AppState) (taskId : String) (u : TaskUpdates) : AppState :=
  let r := updateTaskGo platform hasPermission now taskId u st.timeouts st.tasks
  { st with tasks := r.1, timeouts := r.2 }

/-- The five intents of ChatbotService.analyzeMessage
(src/lib/chatbotService.ts:1-11). -/
inductive Intent where
  | task_creation : Intent
  | information_request : Intent
  | planning : Intent
  | general_chat : Intent
  | list_request : Intent
deriving DecidableEq, Repr

/-- The task-creation regex family of analyzeMessage
(src/lib/chatbotService.ts:43-49), expanded into the literal substrings the
unanchored patterns match. -/
def taskPatterns : List String :=
  ["i want to", "i need to", "i should", "i have to", "i plan to",
   "remind me to", "help me",
   "schedule", "plan", "organize",
   "goal", "objective", "target",
   "task", "todo", "activity"]

/-- The list-request regex family (src/lib/chatbotService.ts:52-57). -/
def listPatterns : List String :=
  ["list", "show me", "what are", "give me", "suggest", "recommend",
   "ideas for", "examples of", "types of",
   "hobbies", "activities", "exercises", "books", "movies", "recipes",
   "how to", "ways to", "methods to"]

/-- The planning regex family (src/lib/chatbotService.ts:60-64). -/
def planningPatterns : List String :=
  ["plan", "schedule", "organize", "structure",
   "week", "day", "month", "routine",
   "productivity", "efficiency", "time management"]

/-- Whether some pattern of a family matches (JavaScript
`patterns.some(p => p.test(lowerMessage))`; each pattern is an unanchored
alternation of literals, i.e. a substring test). -/
def familyMatches (family : List String) (lowerMessage : String) : Bool :=
  family.any (fun p => jsIncludes lowerMessage p)

/-- The intent-detection portion of ChatbotService.analyzeMessage
(src/lib/chatbotService.ts:35-78): lowercase and trim the message, then try
the task-creation, list-request and planning families in that order, fall
back to `information_request` when the message contains a question mark, and
to `general_chat` otherwise.  (The entity extraction, sentiment and static
confidence the method also returns are independent of the intent and are not
needed by any claim.) -/
def analyzeIntent (message : String) : Intent :=
  let lowerMessage := jsTrim (jsToLower message)
  if familyMatches taskPatterns lowerMessage then Intent.task_creation
  else if familyMatches listPatterns lowerMessage then Intent.list_request
  else if familyMatches planningPatterns lowerMessage then Intent.planning
  else if jsIncludes lowerMessage "?" then Intent.information_request
  else Intent.general_chat

/-- The task draft synthesized by ChatbotService.generateTaskFromMessage. -/
structure TaskDraft where
  draftTitle : String
  draftDescription : String
  draftTime : String
  draftCategory : String
  draftPriority : String
deriving DecidableEq, Repr

/-- The leading filler phrases stripped from the title, in the order of the
alternation of `/^(i want to|i need to|i should|i have to|i plan to|remind me
to|help me)\s*/i` (src/lib/chatbotService.ts:419). -/
def fillerPhrases : List String :=
  ["i want to", "i need to", "i should", "i have to", "i plan to",
   "remind me to", "help me"]

/-- Model of the anchored case-insensitive replace at
src/lib/chatbotService.ts:419: if the title starts (case-insensitively) with
one of the filler phrases, drop it and any following whitespace. -/
def stripFiller (l : List Char) : List Char :=
  match fillerPhrases.find? (fun a => isPrefixChars a.data (l.map lowerChar)) with
  | some a => (l.drop a.length).dropWhile isWsChar
  | none => l

/-- JavaScript `title.charAt(0).toUpperCase() + title.slice(1)`. -/
def capitalizeChars : List Char → List Char
  | [] => []
  | c :: rest => upperChar c :: rest

/-- ChatbotService.generateTaskFromMessage (src/lib/chatbotService.ts:409-470).
`currentHour` is `new Date().getHours()`.  Title: text up to the first period
or comma, truncated to 47 characters plus an ellipsis when longer than 50,
filler prefix stripped, first letter capitalized.  Category, priority and
time are keyword chains over the lowercased message, first hit wins. -/
def generateTaskFromMessage (currentHour : Nat) (message : String) : TaskDraft :=
  let lowerMessage := jsToLower message
  let title0 := ((jsSplit ',' ((jsSplit '.' message).headD "")).headD "")
  let title1 := if title0.data.length > 50 then String.mk (title0.data.take 47) ++ "..." else title0
  let title := String.mk (capitalizeChars (stripFiller title1.data))
  let category :=
    if jsIncludes lowerMessage "work" || jsIncludes lowerMessage "job" ||
       jsIncludes lowerMessage "meeting" || jsIncludes lowerMessage "project" ||
       jsIncludes lowerMessage "office" then "Work"
    else if jsIncludes lowerMessage "exercise" || jsIncludes lowerMessage "gym" ||
       jsIncludes lowerMessage "health" || jsIncludes lowerMessage "doctor" ||
       jsIncludes lowerMessage "workout" then "Health"
    else if jsIncludes lowerMessage "learn" || jsIncludes lowerMessage "study" ||
       jsIncludes lowerMessage "course" || jsIncludes lowerMessage "read" ||
       jsIncludes lowerMessage "book" then "Learning"
    else if jsIncludes lowerMessage "friend" || jsIncludes lowerMessage "family" ||
       jsIncludes lowerMessage "call" || jsIncludes lowerMessage "visit" ||
       jsIncludes lowerMessage "social" then "Social"
    else "Personal"
  let priority :=
    if jsIncludes lowerMessage "urgent" || jsIncludes lowerMessage "asap" ||
       jsIncludes lowerMessage "deadline" || jsIncludes lowerMessage "important" ||
       jsIncludes lowerMessage "critical" then "high"
    else if jsIncludes lowerMessage "someday" || jsIncludes lowerMessage "eventually" ||
       jsIncludes lowerMessage "when i have time" || jsIncludes lowerMessage "maybe" then "low"
    else "medium"
  let draftTime :=
    if jsIncludes lowerMessage "morning" then "9:00 AM"
    else if jsIncludes lowerMessage "afternoon" then "2:00 PM"
    else if jsIncludes lowerMessage "evening" then "7:00 PM"
    else if jsIncludes lowerMessage "night" then "8:00 PM"
    else if currentHour < 12 then "10:00 AM"
    else if currentHour < 17 then "3:00 PM"
    else "8:00 PM"
  let description :=
    if message.data.length > 100 then String.mk (message.data.take 97) ++ "..." else message
  { draftTitle := title, draftDescription := description, draftTime := draftTime,
    draftCategory := category, draftPriority := priority }

/-- An accepted suggestion record (AIsuggestion in src/types/task.ts; the
priority union type is not enforced at runtime, so the field is a string). -/
structure AIsuggestion where
  id : String
  title : String
  description : String
  suggestedTime : String
  category : String
  priority : String
  reason : String
deriving DecidableEq, Repr

/-- An object of the JSON array returned by the external completion service,
before validation: every field may be missing (`none`) and is otherwise an
arbitrary string. -/
structure RawSuggestion where
  rawId : Option String := none
  rawTitle : Option String := none
  rawDescription : Option String := none
  rawSuggestedTime : Option String := none
  rawCategory : Option String := none
  rawPriority : Option String := none
  rawReason : Option String := none
deriving DecidableEq, Repr

/-- The truthiness test of the filter at src/lib/aiService.ts:158:
`s.id && s.title && s.suggestedTime && s.category && s.priority && s.reason`.
The `description` field is not part of the test. -/
def hasRequiredFields (s : RawSuggestion) : Bool :=
  truthyStr s.rawId && truthyStr s.rawTitle && truthyStr s.rawSuggestedTime &&
  truthyStr s.rawCategory && truthyStr s.rawPriority && truthyStr s.rawReason

/-- AITaskSuggestionService.validateAndFormatSuggestions
(src/lib/aiService.ts:154-169): keep the entries whose six tested fields are
truthy, truncate title/description/reason to 50/100/120 characters (a missing
description becomes the empty string), and cap the result at 6 entries.
`nowMs` is `Date.now()` in the (unreachable, because the filter guarantees a
truthy id) fallback id. -/
def validateAndFormatSuggestions (nowMs : Nat) (suggestions : List RawSuggestion) :
    List AIsuggestion :=
  (((suggestions.filter hasRequiredFields).mapIdx
    (fun index s =>
      { id :=
          if truthyStr s.rawId then s.rawId.getD ""
          else "ai_" ++ toString nowMs ++ "_" ++ toString index
        title := String.mk ((s.rawTitle.getD "").data.take 50)
        description := String.mk ((s.rawDescription.getD "").data.take 100)
        suggestedTime := s.rawSuggestedTime.getD ""
        category := s.rawCategory.getD ""
        priority := s.rawPriority.getD ""
        reason := String.mk ((s.rawReason.getD "").data.take 120) : AIsuggestion })).take 6)

/-- One entry of `context.existingTasks` (src/lib/aiService.ts:7-12). -/
structure ExistingTaskInfo where
  etTitle : String
  etTime : String
  etCategory : String
  etPriority : String
deriving DecidableEq, Repr

/-- The UserContext handed to the suggestion engine
(src/lib/aiService.ts:4-15). -/
structure UserContext where
  currentTime : String
  dayOfWeek : String
  existingTasks : List ExistingTaskInfo
  completedTasksToday : Nat
  preferredCategories : Option (List String) := none
deriving DecidableEq, Repr

/-- AITaskSuggestionService.parseTimeToHour (src/lib/aiService.ts:376-387):
hour of a `H:MM AM|PM` string in 24-hour form; NaN propagates from a
non-numeric hour. -/
def parseTimeToHour (timeString : String) : JSNum :=
  let parts := jsSplit ' ' timeString
  let timePart := parts.headD ""
  let period : Option String := parts[1]?
  let hours := ((jsSplit ':' timePart).map jsNumber).headD JSNum.nan
  if period == some "PM" && !(hours.seq (JSNum.num 12)) then hours.add (JSNum.num 12)
  else if period == some "AM" && hours.seq (JSNum.num 12) then JSNum.num 0
  else hours

/-- Decimal rendering of a JavaScript number in a template literal. -/
def jsNumToString : JSNum → String
  | JSNum.nan => "NaN"
  | JSNum.num n => toString n

/-- AITaskSuggestionService.getNextAvailableTime (src/lib/aiService.ts:389-394). -/
def getNextAvailableTime (currentHour : JSNum) : String :=
  let nextHour := currentHour.add (JSNum.num 1)
  let hour12 := if (JSNum.num 12).lt nextHour then nextHour.sub (JSNum.num 12) else nextHour
  let period := if nextHour.ge (JSNum.num 12) then "PM" else "AM"
  jsNumToString hour12 ++ ":00 " ++ period

/-- The current hour extracted at src/lib/aiService.ts:172:
`parseInt(context.currentTime.split(':')[0])`. -/
def contextHour (ctx : UserContext) : JSNum :=
  jsParseInt ((jsSplit ':' ctx.currentTime).headD "")

/-- AITaskSuggestionService.getFallbackSuggestions
(src/lib/aiService.ts:171-374): assemble the hour-band and context
suggestions in push order, keep those whose parsed hour is at least the
current hour, and return the first 6. -/
def getFallbackSuggestionsMain (ctx : UserContext) : List AIsuggestion :=
  let currentHour := contextHour ctx
  let isWeekend := ctx.dayOfWeek == "Saturday" || ctx.dayOfWeek == "Sunday"
  let morning : List AIsuggestion :=
    if currentHour.ge (JSNum.num 6) && currentHour.lt (JSNum.num 12) then
      [{ id := "morning_hydration", title := "Morning Hydration & Stretch",
         description := "Start with a glass of water and 5-minute stretch routine",
         suggestedTime := "7:30 AM", category := "Health", priority := "high",
         reason := "Hydration and movement boost energy and focus for the day ahead" },
       { id := "priority_planning", title := "Daily Priority Review",
         description := "Identify your top 3 most important tasks for today",
         suggestedTime := "8:30 AM", category := "Planning", priority := "high",
         reason := "Clear priorities help maintain focus and ensure important work gets done" }] ++
      (if !isWeekend then
        [{ id := "deep_work_block", title := "Deep Work Session",
           description := "Focus on your most challenging task without distractions",
           suggestedTime := "9:00 AM", category := "Work", priority := "high",
           reason := "Morning hours are ideal for complex tasks when mental energy is highest" }]
       else
        [{ id := "weekend_planning", title := "Weekend Planning",
           description := "Plan relaxing and enjoyable activities for the weekend",
           suggestedTime := "9:00 AM", category := "Personal", priority := "medium",
           reason := "Planning helps you make the most of your free time" }])
    else []
  let afternoon : List AIsuggestion :=
    if currentHour.ge (JSNum.num 12) && currentHour.lt (JSNum.num 18) then
      [{ id := "energy_walk", title := "Energizing Walk",
         description := "Take a 15-minute walk outside for fresh air and movement",
         suggestedTime := "1:30 PM", category := "Health", priority := "medium",
         reason := "Midday movement combats afternoon fatigue and improves creativity" },
       { id := "skill_development", title := "Skill Building Time",
         description := "Spend 20 minutes learning something new in your field",
         suggestedTime := "3:00 PM", category := "Learning", priority := "medium",
         reason := "Continuous learning keeps you competitive and engaged" }] ++
      (if isWeekend then
        [{ id := "personal_project", title := "Personal Project Time",
           description := "Work on a hobby or personal interest project",
           suggestedTime := "2:00 PM", category := "Personal", priority := "medium",
           reason := "Weekends are perfect for pursuing personal interests and creativity" }]
       else
        [{ id := "afternoon_review", title := "Progress Check-in",
           description := "Review morning accomplishments and adjust afternoon plans",
           suggestedTime := "2:30 PM", category := "Planning", priority := "low",
           reason := "Regular check-ins help you stay on track and adjust as needed" }])
    else []
  let evening : List AIsuggestion :=
    if currentHour.ge (JSNum.num 18) && currentHour.lt (JSNum.num 22) then
      [{ id := "tomorrow_prep", title := "Tomorrow's Success Setup",
         description := "Prepare clothes, meals, or materials for tomorrow",
         suggestedTime := "8:00 PM", category := "Planning", priority := "medium",
         reason := "Evening preparation reduces morning stress and decision fatigue" },
       { id := "gratitude_reflection", title := "Gratitude & Reflection",
         description := "Write down 3 things you're grateful for today",
         suggestedTime := "9:30 PM", category := "Wellness", priority := "low",
         reason := "Gratitude practice improves mental well-being and sleep quality" }] ++
      (if ctx.completedTasksToday < 3 then
        [{ id := "quick_win", title := "Quick Win Task",
           description := "Complete one small task to end the day productively",
           suggestedTime := "7:00 PM", category := "Personal", priority := "medium",
           reason := "Small accomplishments create momentum and positive feelings" }]
       else []) ++
      (if isWeekend then
        [{ id := "social_connection", title := "Connect with Loved Ones",
           description := "Call or message someone important to you",
           suggestedTime := "7:30 PM", category := "Social", priority := "medium",
           reason := "Social connections are vital for mental health and happiness" }]
       else [])
    else []
  let night : List AIsuggestion :=
    if currentHour.ge (JSNum.num 22) || currentHour.lt (JSNum.num 6) then
      [{ id := "wind_down", title := "Digital Wind Down",
         description := "Put devices away and prepare for restful sleep",
         suggestedTime := "10:00 PM", category := "Wellness", priority := "high",
         reason := "Reducing screen time before bed improves sleep quality" },
       { id := "reading_time", title := "Relaxing Reading",
         description := "Read a book or magazine for 15-20 minutes",
         suggestedTime := "10:30 PM", category := "Personal", priority := "low",
         reason := "Reading helps relax the mind and transition to sleep" }]
    else []
  let firstTask : List AIsuggestion :=
    if ctx.existingTasks.length == 0 then
      [{ id := "first_task", title := "Plan Your Day",
         description := "Add your first task to get started with planning",
         suggestedTime := getNextAvailableTime currentHour, category := "Planning",
         priority := "high",
         reason := "Starting with a plan helps organize your day effectively" }]
    else []
  let celebration : List AIsuggestion :=
    if ctx.completedTasksToday ≥ 5 then
      [{ id := "celebration", title := "Celebrate Your Progress",
         description := "Take a moment to acknowledge your productivity today",
         suggestedTime := getNextAvailableTime currentHour, category := "Wellness",
         priority := "low",
         reason := "Celebrating achievements boosts motivation and well-being" }]
    else []
  let assembled := morning ++ afternoon ++ evening ++ night ++ firstTask ++ celebration
  let relevant := assembled.filter (fun s => (parseTimeToHour s.suggestedTime).ge currentHour)
  relevant.take 6

/-- The hour extracted by the filter of the simplified fallback variant
(src/lib/aiSuggestions.ts:132): `parseInt(suggestion.suggestedTime.split(':')[0])`
on a 24-hour `HH:MM` string. -/
def simpleSuggestionHour (s : AIsuggestion) : JSNum :=
  jsParseInt ((jsSplit ':' s.suggestedTime).headD "")

/-- getFallbackSuggestions of the simplified variant
(src/lib/aiSuggestions.ts:69-137): a static 6-entry table with 24-hour
times, filtered to hours at least the current hour and capped at 4.
`currentHour` is `new Date().getHours()`. -/
def getFallbackSuggestionsSimple (currentHour : Nat) : List AIsuggestion :=
  let suggestions : List AIsuggestion :=
    [{ id := "fallback_morning_1", title := "Morning Mindfulness",
       description := "Start with 5 minutes of deep breathing or meditation",
       suggestedTime := "07:30", category := "Wellness", priority := "high",
       reason := "Morning mindfulness reduces stress and improves focus throughout the day" },
     { id := "fallback_morning_2", title := "Priority Planning",
       description := "Identify your top 3 most important tasks for today",
       suggestedTime := "08:30", category := "Planning", priority := "high",
       reason := "Clear priorities help maintain focus and ensure important work gets done" },
     { id := "fallback_midday_1", title := "Energy Boost Walk",
       description := "Take a 15-minute walk outside for fresh air",
       suggestedTime := "13:30", category := "Health", priority := "medium",
       reason := "Midday movement combats afternoon fatigue and improves creativity" },
     { id := "fallback_afternoon_1", title := "Skill Development",
       description := "Spend 20 minutes learning something new in your field",
       suggestedTime := "15:00", category := "Learning", priority := "medium",
       reason := "Continuous learning keeps you competitive and engaged in your career" },
     { id := "fallback_evening_1", title := "Tomorrow's Success Setup",
       description := "Prepare clothes, meals, or materials for tomorrow",
       suggestedTime := "20:00", category := "Planning", priority := "medium",
       reason := "Evening preparation reduces morning stress and decision fatigue" },
     { id := "fallback_evening_2", title := "Gratitude Reflection",
       description := "Write down 3 things you're grateful for today",
       suggestedTime := "21:30", category := "Wellness", priority := "low",
       reason := "Gratitude practice improves mental well-being and sleep quality" }]
  (suggestions.filter (fun s => (simpleSuggestionHour s).ge (JSNum.num currentHour))).take 4

/-- AITaskSuggestionService.isValidApiKeyFormat (src/lib/aiService.ts:109-112). -/
def isValidApiKeyFormat (apiKey : String) : Bool :=
  jsStartsWith apiKey "sk-" && apiKey.data.length ≥ 20

/-- The possible outcomes of the external completion call inside the `try`
block of generateSuggestions: the service throws (with an optional HTTP
status), the completion has no content, `JSON.parse` throws on a malformed
body, the parsed value is not an array (validateAndFormatSuggestions
throws), or a JSON array of raw objects is obtained. -/
inductive AICallOutcome where
  | serviceError (status : Option Nat) : AICallOutcome
  | noResponse : AICallOutcome
  | malformedJson : AICallOutcome
  | notArray : AICallOutcome
  | ok (raw : List RawSuggestion) : AICallOutcome
deriving DecidableEq, Repr

/-- The human-readable message assembled in the `catch` branch
(src/lib/aiService.ts:92-99) from the error's optional HTTP status. -/
def aiErrorMessage (status : Option Nat) : String :=
  match status with
  | some 401 => "Invalid API key - please check your OpenAI API key"
  | some 429 => "API rate limit exceeded - please try again later"
  | some 403 => "API access forbidden - please check your OpenAI account"
  | _ => "AI service temporarily unavailable"

/-- The result shape of generateSuggestions
(src/lib/aiService.ts:27): a suggestion list, the using-fallback flag and an
optional error string. -/
structure SuggestionOutcome where
  suggestions : List AIsuggestion
  usingFallback : Bool
  error : Option String := none
deriving DecidableEq, Repr

/-- AITaskSuggestionService.generateSuggestions (src/lib/aiService.ts:27-107):
a missing (falsy) key or a key of invalid format short-circuits to the
fallback list; otherwise the external call's outcome either yields the
validated suggestions or is caught and replaced by the fallback list plus a
status-derived message.  Every path returns normally — the whole service
interaction is inside try/catch. -/
def generateSuggestions (ctx : UserContext) (apiKey : Option String) (nowMs : Nat)
    (outcome : AICallOutcome) : SuggestionOutcome :=
  if !truthyStr apiKey then
    { suggestions := getFallbackSuggestionsMain ctx, usingFallback := true }
  else if !isValidApiKeyFormat (apiKey.getD "") then
    { suggestions := getFallbackSuggestionsMain ctx, usingFallback := true,
      error := some "Invalid API key format" }
  else
    match outcome with
    | AICallOutcome.ok raw =>
      { suggestions := validateAndFormatSuggestions nowMs raw, usingFallback := false }
    | AICallOutcome.serviceError status =>
      { suggestions := getFallbackSuggestionsMain ctx, usingFallback := true,
        error := some (aiErrorMessage status) }
    | AICallOutcome.noResponse =>
      { suggestions := getFallbackSuggestionsMain ctx, usingFallback := true,
        error := some (aiErrorMessage none) }
    | AICallOutcome.malformedJson =>
      { suggestions := getFallbackSuggestionsMain ctx, usingFallback := true,
        error := some (aiErrorMessage none) }
    | AICallOutcome.notArray =>
      { suggestions := getFallbackSuggestionsMain ctx, usingFallback := true,
        error := some (aiErrorMessage none) }

/-- AddTaskModal.formatTime12Hour's two-digit minute padding
(src component AddTaskModal, `minutes < 10 ? '0' + minutes : minutes`). -/
def pad2 (m : Nat) : String :=
  if m < 10 then "0" ++ toString m else toString m

/-- The canonical 12-hour time string `H:MM AM|PM` the UI produces
(AddTaskModal.formatTime12Hour): unpadded hour 1-12, two-digit minutes, a
space, and the AM/PM token.  A task time field is well-formed in the sense
of the claims exactly when it equals `renderTime h m pm` for some
`1 ≤ h ≤ 12` and `m ≤ 59`. -/
def renderTime (h m : Nat) (pm : Bool) : String :=
  toString h ++ ":" ++ pad2 m ++ " " ++ (if pm then "PM" else "AM")

/-- Modelled from the spec (time-parsing algorithm, §4.1): the 24-hour value
of a 12-hour clock reading — "convert hour 12→0 for AM and add 12 for PM
(except 12 PM stays 12)". -/
def specHour24 (h : Nat) (pm : Bool) : Nat :=
  if pm ∧ h ≠ 12 then h + 12
  else if ¬pm ∧ h = 12 then 0
  else h

/-- Modelled from the spec (§4.1): "today's occurrence" of a 12-hour clock
reading relative to the instant `now`, in ms of the model's timeline. -/
def specTodayInstant (now : Nat) (h m : Nat) (pm : Bool) : Int :=
  (dayStart now : Int) + (specHour24 h pm : Int) * 3600000 + (m : Int) * 60000

lemma mapGet_mapDelete (m : TimeoutMap) (k : String) : mapGet (mapDelete m k) k = none := by
  have h : List.find? (fun e => e.1 == k) (mapDelete m k) = none := by
    refine List.find?_eq_none.mpr (fun x hx => ?_)
    simp only [mapDelete, List.mem_filter] at hx
    simpa using hx.2
  unfold mapGet
  rw [h]

/-- C9: cancelling the same handle twice leaves the tracked-reminder map in
the same state as cancelling it once (the second call is a no-op), and
cancelling a handle that is not tracked — never scheduled or already
cancelled — changes nothing.  `cancelNotification` is a total function in
the model, which is the shallow rendering of "does not raise". -/
theorem cancelNotification_idempotent (notificationId : String) (m : TimeoutMap) :
    cancelNotification notificationId (cancelNotification notificationId m) =
      cancelNotification notificationId m ∧
    (mapGet m notificationId = none → cancelNotification notificationId m = m) := by
  constructor
  · unfold cancelNotification
    cases hw : jsStartsWith notificationId "web_" with
    | false => simp
    | true =>
      simp only [if_pos rfl]
      cases hg : mapGet m notificationId with
      | none => simp [hg]
      | some v => simp [hg, mapGet_mapDelete]
  · intro hnone
    unfold cancelNotification
    cases hw : jsStartsWith notificationId "web_" <;> simp [hnone]

/-- C9 witness: a concrete double cancellation and a concrete cancellation of
an untracked handle. -/
theorem cancelNotification_idempotent_witness :
    cancelNotification "web_a_1" (cancelNotification "web_a_1" [("web_b_2", JSNum.num 5)]) =
      cancelNotification "web_a_1" [("web_b_2", JSNum.num 5)] ∧
    cancelNotification "web_a_1" [("web_b_2", JSNum.num 5)] = [("web_b_2", JSNum.num 5)] :=
  ⟨(cancelNotification_idempotent "web_a_1" [("web_b_2", JSNum.num 5)]).1,
   (cancelNotification_idempotent "web_a_1" [("web_b_2", JSNum.num 5)]).2 (by decide)⟩

lemma extractFirst_eq_none {p : PlannerTask → Bool} {l : List PlannerTask}
    (h : ∀ t ∈ l, p t = false) : extractFirst p l = none := by
  induction l with
  | nil => rfl
  | cons t rest ih =>
    simp only [extractFirst, h t (List.mem_cons_self t rest), Bool.false_eq_true, if_false]
    rw [ih (fun x hx => h x (List.mem_cons_of_mem t hx))]
    rfl

lemma updateTaskGo_id_absent (platform : JSPlatform) (hasPermission : Bool) (now : Nat)
    (taskId : String) (u : TaskUpdates) (timeouts : TimeoutMap) (l : List PlannerTask)
    (h : ∀ t ∈ l, (t.id == taskId) = false) :
    updateTaskGo platform hasPermission now taskId u timeouts l = (l, timeouts) := by
  induction l with
  | nil => rfl
  | cons t rest ih =>
    simp only [updateTaskGo, h t (List.mem_cons_self t rest), Bool.false_eq_true, if_false]
    rw [ih (fun x hx => h x (List.mem_cons_of_mem t hx))]

/-- C10: for a task id absent from the stored active collection, completeTask,
deleteTask and updateTask are silent no-ops: the whole state — the active
collection, the completed collection and the timeout map — is unchanged. -/
theorem absent_id_noop (platform : JSPlatform) (hasPermission : Bool) (now : Nat)
    (st : AppState) (taskId : String) (u : TaskUpdates)
    (h : ∀ t ∈ st.tasks, t.id ≠ taskId) :
    completeTask now st taskId = st ∧ deleteTask st taskId = st ∧
      updateTask platform hasPermission now st taskId u = st := by
  have hb : ∀ t ∈ st.tasks, (t.id == taskId) = false :=
    fun t ht => beq_eq_false_iff_ne.mpr (h t ht)
  refine ⟨?_, ?_, ?_⟩
  · unfold completeTask
    rw [extractFirst_eq_none hb]
  · unfold deleteTask
    rw [List.find?_eq_none.mpr (fun t ht => by simp [hb t ht]),
        List.filter_eq_self.mpr (fun t ht => by simp [hb t ht])]
  · unfold updateTask
    rw [updateTaskGo_id_absent _ _ _ _ _ _ _ hb]

/-- C10 witness: the three operations applied with an id absent from a
concrete one-task store. -/
theorem absent_id_noop_witness :
    completeTask 7 ⟨[{ id := "a", title := "T", taskTime := "9:00 AM" }], [], []⟩ "b" =
      ⟨[{ id := "a", title := "T", taskTime := "9:00 AM" }], [], []⟩ ∧
    deleteTask ⟨[{ id := "a", title := "T", taskTime := "9:00 AM" }], [], []⟩ "b" =
      ⟨[{ id := "a", title := "T", taskTime := "9:00 AM" }], [], []⟩ ∧
    updateTask JSPlatform.web true 7 ⟨[{ id := "a", title := "T", taskTime := "9:00 AM" }], [], []⟩
      "b" {} = ⟨[{ id := "a", title := "T", taskTime := "9:00 AM" }], [], []⟩ :=
  absent_id_noop JSPlatform.web true 7
    ⟨[{ id := "a", title := "T", taskTime := "9:00 AM" }], [], []⟩ "b" {}
    (by intro t ht; rcases List.mem_singleton.mp ht with rfl; decide)

/-- C2 counterexample: the parser does not return null on malformed 12-hour
strings.  "13:30 PM" (hour outside 1-12) yields a valid rolled-over Date,
"9:30" (missing AM/PM token) a valid Date, "abc xy" (non-numeric hour) an
invalid — but non-null — Date, and "9:75 AM" (minute outside 0-59) a valid
rolled-over Date. -/
theorem parseTaskTime_malformed_counterexample :
    parseTaskTime 0 "13:30 PM" = some (JSNum.num 91800000) ∧
    parseTaskTime 0 "13:30 PM" ≠ none ∧
    parseTaskTime 0 "9:30" ≠ none ∧
    parseTaskTime 0 "abc xy" = some JSNum.nan ∧
    parseTaskTime 0 "abc xy" ≠ none ∧
    parseTaskTime 0 "9:75 AM" ≠ none := by decide

/-- C2 amended: the parser never returns null for any string input: the
`null` return sits in a catch branch no string input can reach.  Malformed
inputs produce a Date instead — invalid for non-numeric components,
reinterpreted or rolled over for a missing AM/PM token or out-of-range
hour/minute. -/
theorem parseTaskTime_never_null (now : Nat) (timeString : String) :
    (parseTaskTime now timeString).isSome = true := rfl

/-- C4 counterexample: classifying "I need to finish the report" does yield
intent task_creation, but the synthesized draft's category is Personal, not
Work — the message contains none of the Work keywords (work, job, meeting,
project, office). -/
theorem report_message_counterexample :
    analyzeIntent "I need to finish the report" = Intent.task_creation ∧
    (generateTaskFromMessage 10 "I need to finish the report").draftCategory = "Personal" ∧
    ¬ (generateTaskFromMessage 10 "I need to finish the report").draftCategory = "Work" := by
  decide

/-- C4 amended: classifying "I need to finish the report" yields intent
task_creation, and the synthesized draft has category Personal and priority
medium, at every current hour. -/
theorem report_message_classification :
    analyzeIntent "I need to finish the report" = Intent.task_creation ∧
    ∀ currentHour : Nat,
      (generateTaskFromMessage currentHour "I need to finish the report").draftCategory =
        "Personal" ∧
      (generateTaskFromMessage currentHour "I need to finish the report").draftPriority =
        "medium" :=
  ⟨by decide, fun _ => ⟨rfl, rfl⟩⟩

/-- C5: the intent classifier tries the pattern families in the fixed order
task-creation, list-request, planning, question-mark fallback, general chat;
the first matching family decides, and in particular a message matching a
task-creation pattern together with a list-request or planning pattern is
classified task_creation. -/
theorem analyzeIntent_precedence (message : String) :
    (familyMatches taskPatterns (jsTrim (jsToLower message)) = true →
      analyzeIntent message = Intent.task_creation) ∧
    (familyMatches taskPatterns (jsTrim (jsToLower message)) = false →
      familyMatches listPatterns (jsTrim (jsToLower message)) = true →
      analyzeIntent message = Intent.list_request) ∧
    (familyMatches taskPatterns (jsTrim (jsToLower message)) = false →
      familyMatches listPatterns (jsTrim (jsToLower message)) = false →
      familyMatches planningPatterns (jsTrim (jsToLower message)) = true →
      analyzeIntent message = Intent.planning) ∧
    (familyMatches taskPatterns (jsTrim (jsToLower message)) = false →
      familyMatches listPatterns (jsTrim (jsToLower message)) = false →
      familyMatches planningPatterns (jsTrim (jsToLower message)) = false →
      jsIncludes (jsTrim (jsToLower message)) "?" = true →
      analyzeIntent message = Intent.information_request) ∧
    (familyMatches taskPatterns (jsTrim (jsToLower message)) = false →
      familyMatches listPatterns (jsTrim (jsToLower message)) = false →
      familyMatches planningPatterns (jsTrim (jsToLower message)) = false →
      jsIncludes (jsTrim (jsToLower message)) "?" = false →
      analyzeIntent message = Intent.general_chat) ∧
    (familyMatches taskPatterns (jsTrim (jsToLower message)) = true ∧
      (familyMatches listPatterns (jsTrim (jsToLower message)) = true ∨
       familyMatches planningPatterns (jsTrim (jsToLower message)) = true) →
      analyzeIntent message = Intent.task_creation) := by
  refine ⟨?_, ?_, ?_, ?_, ?_, ?_⟩ <;> unfold analyzeIntent
  · intro h1; simp [h1]
  · intro h1 h2; simp [h1, h2]
  · intro h1 h2 h3; simp [h1, h2, h3]
  · intro h1 h2 h3 h4; simp [h1, h2, h3, h4]
  · intro h1 h2 h3 h4; simp [h1, h2, h3, h4]
  · rintro ⟨h1, -⟩; simp [h1]

/-- C5 witness: "schedule my week" matches both a task-creation pattern
("schedule") and planning patterns ("schedule", "week"), and is classified
task_creation. -/
theorem analyzeIntent_precedence_witness :
    familyMatches taskPatterns (jsTrim (jsToLower "schedule my week")) = true ∧
    familyMatches planningPatterns (jsTrim (jsToLower "schedule my week")) = true ∧
    analyzeIntent "schedule my week" = Intent.task_creation :=
  ⟨by decide, by decide,
   (analyzeIntent_precedence "schedule my week").2.2.2.2.2 ⟨by decide, Or.inr (by decide)⟩⟩

/-- C6 counterexample: an entry missing only the description field is not
dropped — it is accepted with an empty description — because the filter
tests only the six fields id, title, suggestedTime, category, priority,
reason. -/
theorem missing_description_accepted :
    validateAndFormatSuggestions 0
      [{ rawId := some "s1", rawTitle := some "T", rawDescription := none,
         rawSuggestedTime := some "9:00 AM", rawCategory := some "Work",
         rawPriority := some "high", rawReason := some "R" }] =
      [{ id := "s1", title := "T", description := "", suggestedTime := "9:00 AM",
         category := "Work", priority := "high", reason := "R" }] := by decide

/-- C6 amended: entries missing any of the six tested fields {id, title,
suggestedTime, category, priority, reason} are dropped (description is not
required; a missing description becomes the empty string); accepted entries
have title, description and reason truncated to 50, 100 and 120 characters,
and at most 6 entries are accepted. -/
theorem validateAndFormatSuggestions_spec (nowMs : Nat) (l : List RawSuggestion) :
    (validateAndFormatSuggestions nowMs l).length ≤ 6 ∧
    (∀ s ∈ validateAndFormatSuggestions nowMs l,
      s.title.data.length ≤ 50 ∧ s.description.data.length ≤ 100 ∧
      s.reason.data.length ≤ 120) ∧
    (∀ r : RawSuggestion, hasRequiredFields r = false →
      validateAndFormatSuggestions nowMs [r] = []) ∧
    validateAndFormatSuggestions nowMs l =
      validateAndFormatSuggestions nowMs (l.filter hasRequiredFields) := by
  refine ⟨?_, ?_, ?_, ?_⟩
  · exact List.length_take_le _ _
  · intro s hs
    unfold validateAndFormatSuggestions at hs
    have hs2 := List.take_subset _ _ hs
    rw [List.mapIdx_eq_ofFn] at hs2
    rcases Set.mem_range.mp ((List.mem_ofFn _ _).mp hs2) with ⟨i, hi⟩
    refine ⟨?_, ?_, ?_⟩ <;> rw [← hi] <;>
      simp
  · intro r hr
    unfold validateAndFormatSuggestions
    simp [hr]
  · unfold validateAndFormatSuggestions
    rw [List.filter_filter]
    simp

/-- C6 witness: the spec theorem applied to a concrete two-entry response
whose second entry misses its reason field and is dropped. -/
theorem validateAndFormatSuggestions_spec_witness :
    (validateAndFormatSuggestions 0
      [{ rawId := some "s1", rawTitle := some "T", rawDescription := some "D",
         rawSuggestedTime := some "9:00 AM", rawCategory := some "Work",
         rawPriority := some "high", rawReason := some "R" },
       { rawId := some "s2", rawTitle := some "U", rawDescription := some "D",
         rawSuggestedTime := some "1:00 PM", rawCategory := some "Health",
         rawPriority := some "low", rawReason := none }]).length ≤ 6 ∧
    validateAndFormatSuggestions 0
      [{ rawId := some "s2", rawTitle := some "U", rawDescription := some "D",
         rawSuggestedTime := some "1:00 PM", rawCategory := some "Health",
         rawPriority := some "low", rawReason := none }] = [] :=
  ⟨(validateAndFormatSuggestions_spec 0
      [{ rawId := some "s1", rawTitle := some "T", rawDescription := some "D",
         rawSuggestedTime := some "9:00 AM", rawCategory := some "Work",
         rawPriority := some "high", rawReason := some "R" },
       { rawId := some "s2", rawTitle := some "U", rawDescription := some "D",
         rawSuggestedTime := some "1:00 PM", rawCategory := some "Health",
         rawPriority := some "low", rawReason := none }]).1,
   (validateAndFormatSuggestions_spec 0 []).2.2.1
      { rawId := some "s2", rawTitle := some "U", rawDescription := some "D",
        rawSuggestedTime := some "1:00 PM", rawCategory := some "Health",
        rawPriority := some "low", rawReason := none } (by decide)⟩

/-- C7: generateSuggestions is a total function of the user context, the
optional credential and the call outcome — every path yields a record with
a suggestion list, the using-fallback flag, and an optional error string —
and on every failure path (missing credential, malformed credential, service
error, no content, malformed or non-array response) the suggestions are the
deterministic fallback list. -/
theorem generateSuggestions_shape (ctx : UserContext) (apiKey : Option String)
    (nowMs : Nat) (outcome : AICallOutcome) :
    ((generateSuggestions ctx apiKey nowMs outcome).usingFallback = true →
      (generateSuggestions ctx apiKey nowMs outcome).suggestions =
        getFallbackSuggestionsMain ctx) ∧
    ((generateSuggestions ctx apiKey nowMs outcome).usingFallback = false →
      ∃ raw, outcome = AICallOutcome.ok raw ∧
        (generateSuggestions ctx apiKey nowMs outcome).suggestions =
          validateAndFormatSuggestions nowMs raw ∧
        (generateSuggestions ctx apiKey nowMs outcome).error = none) ∧
    ((truthyStr apiKey = false ∨ isValidApiKeyFormat (apiKey.getD "") = false ∨
        (∀ raw, outcome ≠ AICallOutcome.ok raw)) →
      (generateSuggestions ctx apiKey nowMs outcome).usingFallback = true ∧
      (generateSuggestions ctx apiKey nowMs outcome).suggestions =
        getFallbackSuggestionsMain ctx) := by
  unfold generateSuggestions
  cases hk : truthyStr apiKey with
  | false => simp
  | true =>
    cases hv : isValidApiKeyFormat (apiKey.getD "") with
    | false => simp
    | true =>
      cases outcome with
      | ok raw =>
        refine ⟨by simp, fun _ => ⟨raw, rfl, by simp, by simp⟩, ?_⟩
        rintro (h | h | h)
        · simp at h
        · simp at h
        · exact absurd rfl (h raw)
      | serviceError status => simp
      | noResponse => simp
      | malformedJson => simp
      | notArray => simp

/-- C7 witness: a service error with HTTP status 401 under a well-formed
credential still produces the fallback list with the using-fallback flag
set. -/
theorem generateSuggestions_shape_witness :
    (generateSuggestions
        { currentTime := "9:00", dayOfWeek := "Monday", existingTasks := [],
          completedTasksToday := 0 }
        (some "sk-12345678901234567890") 0
        (AICallOutcome.serviceError (some 401))).usingFallback = true ∧
    (generateSuggestions
        { currentTime := "9:00", dayOfWeek := "Monday", existingTasks := [],
          completedTasksToday := 0 }
        (some "sk-12345678901234567890") 0
        (AICallOutcome.serviceError (some 401))).suggestions =
      getFallbackSuggestionsMain
        { currentTime := "9:00", dayOfWeek := "Monday", existingTasks := [],
          completedTasksToday := 0 } :=
  (generateSuggestions_shape
      { currentTime := "9:00", dayOfWeek := "Monday", existingTasks := [],
        completedTasksToday := 0 }
      (some "sk-12345678901234567890") 0
      (AICallOutcome.serviceError (some 401))).2.2
    (Or.inr (Or.inr (fun raw h => by cases h)))

lemma JSNum.ge_num_true {x : JSNum} {b : Int} (h : x.ge (JSNum.num b) = true) :
    ∃ v : Int, x = JSNum.num v ∧ b ≤ v := by
  cases x with
  | nan => simp [JSNum.ge] at h
  | num v => exact ⟨v, rfl, by simpa [JSNum.ge] using h⟩

set_option maxHeartbeats 1000000 in
/-- C8: every suggestion surviving in either fallback list has a parsed hour
at least the current hour — in particular none generated at hour 21 has a
parsed hour below 21 — and the list is capped at 6 entries (4 in the
simplified variant). -/
theorem fallback_hour_floor (ctx : UserContext) :
    (∀ s ∈ getFallbackSuggestionsMain ctx,
      (parseTimeToHour s.suggestedTime).ge (contextHour ctx) = true) ∧
    (getFallbackSuggestionsMain ctx).length ≤ 6 ∧
    (∀ hh : Int, contextHour ctx = JSNum.num hh →
      ∀ s ∈ getFallbackSuggestionsMain ctx,
        ∃ v : Int, parseTimeToHour s.suggestedTime = JSNum.num v ∧ hh ≤ v) ∧
    (∀ currentHour : Nat,
      (∀ s ∈ getFallbackSuggestionsSimple currentHour,
        (simpleSuggestionHour s).ge (JSNum.num currentHour) = true) ∧
      (getFallbackSuggestionsSimple currentHour).length ≤ 4) := by
  have hmain : ∀ s ∈ getFallbackSuggestionsMain ctx,
      (parseTimeToHour s.suggestedTime).ge (contextHour ctx) = true := by
    intro s hs
    simp only [getFallbackSuggestionsMain] at hs
    exact (List.mem_filter.mp (List.take_subset _ _ hs)).2
  refine ⟨hmain, ?_, ?_, ?_⟩
  · simp only [getFallbackSuggestionsMain]
    exact List.length_take_le _ _
  · intro hh hhh s hs
    have := hmain s hs
    rw [hhh] at this
    exact JSNum.ge_num_true this
  · intro currentHour
    constructor
    · intro s hs
      simp only [getFallbackSuggestionsSimple] at hs
      exact (List.mem_filter.mp (List.take_subset _ _ hs)).2
    · simp only [getFallbackSuggestionsSimple]
      exact List.length_take_le _ _

/-- C8 witness: at hour 21 (currentTime "21:15", five tasks completed, a
nonempty schedule) the gratitude suggestion survives with parsed hour 21,
the list is within the cap, and the simplified variant at hour 21 keeps its
"21:30" entry within the cap of 4. -/
theorem fallback_hour_floor_witness :
    (parseTimeToHour "9:30 PM").ge
        (contextHour { currentTime := "21:15", dayOfWeek := "Monday",
                       existingTasks := [{ etTitle := "t", etTime := "9:00 AM",
                                           etCategory := "Work", etPriority := "high" }],
                       completedTasksToday := 5 }) = true ∧
    (getFallbackSuggestionsMain { currentTime := "21:15", dayOfWeek := "Monday",
                                  existingTasks := [{ etTitle := "t", etTime := "9:00 AM",
                                                      etCategory := "Work",
                                                      etPriority := "high" }],
                                  completedTasksToday := 5 }).length ≤ 6 ∧
    (simpleSuggestionHour { id := "fallback_evening_2", title := "Gratitude Reflection",
                            description := "Write down 3 things you're grateful for today",
                            suggestedTime := "21:30", category := "Wellness",
                            priority := "low",
                            reason := "Gratitude practice improves mental well-being and sleep quality" }).ge
        (JSNum.num 21) = true ∧
    (getFallbackSuggestionsSimple 21).length ≤ 4 :=
  ⟨(fallback_hour_floor { currentTime := "21:15", dayOfWeek := "Monday",
                          existingTasks := [{ etTitle := "t", etTime := "9:00 AM",
                                              etCategory := "Work", etPriority := "high" }],
                          completedTasksToday := 5 }).1
      { id := "gratitude_reflection", title := "Gratitude & Reflection",
        description := "Write down 3 things you're grateful for today",
        suggestedTime := "9:30 PM", category := "Wellness", priority := "low",
        reason := "Gratitude practice improves mental well-being and sleep quality" }
      (by decide),
   (fallback_hour_floor { currentTime := "21:15", dayOfWeek := "Monday",
                          existingTasks := [{ etTitle := "t", etTime := "9:00 AM",
                                              etCategory := "Work", etPriority := "high" }],
                          completedTasksToday := 5 }).2.1,
   ((fallback_hour_floor { currentTime := "21:15", dayOfWeek := "Monday",
                           existingTasks := [{ etTitle := "t", etTime := "9:00 AM",
                                               etCategory := "Work", etPriority := "high" }],
                           completedTasksToday := 5 }).2.2.2 21).1
      { id := "fallback_evening_2", title := "Gratitude Reflection",
        description := "Write down 3 things you're grateful for today",
        suggestedTime := "21:30", category := "Wellness", priority := "low",
        reason := "Gratitude practice improves mental well-being and sleep quality" }
      (by decide),
   ((fallback_hour_floor { currentTime := "21:15", dayOfWeek := "Monday",
                           existingTasks := [{ etTitle := "t", etTime := "9:00 AM",
                                               etCategory := "Work", etPriority := "high" }],
                           completedTasksToday := 5 }).2.2.2 21).2⟩

set_option maxHeartbeats 4000000 in
lemma parsedPieces_renderTime :
    ∀ (i : Fin 12) (j : Fin 60) (b : Bool),
      parsedPieces (renderTime (i.val + 1) j.val b) =
        (JSNum.num (i.val + 1), JSNum.num j.val, some (if b then "PM" else "AM")) := by decide

lemma dayStart_le (now : Nat) : dayStart now ≤ now := Nat.sub_le _ _

lemma lt_dayStart_add (now : Nat) : now < dayStart now + msPerDay := by
  have hpos : 0 < msPerDay := by decide
  have := Nat.mod_lt now hpos
  have hle : now % msPerDay ≤ now := Nat.mod_le _ _
  unfold dayStart
  omega

lemma specHour24_le (h : Nat) (pm : Bool) (h2 : h ≤ 12) : specHour24 h pm ≤ 23 := by
  unfold specHour24
  split_ifs with a b
  · obtain ⟨-, hne⟩ := a
    omega
  · omega
  · omega

lemma specTodayInstant_lb (now h m : Nat) (pm : Bool) :
    (dayStart now : Int) ≤ specTodayInstant now h m pm := by
  unfold specTodayInstant
  have h1 : (0 : Int) ≤ (specHour24 h pm : Int) * 3600000 :=
    mul_nonneg (Int.natCast_nonneg _) (by norm_num)
  have h2 : (0 : Int) ≤ (m : Int) * 60000 :=
    mul_nonneg (Int.natCast_nonneg _) (by norm_num)
  omega

lemma specTodayInstant_ub (now h m : Nat) (pm : Bool) (h2 : h ≤ 12) (hm : m ≤ 59) :
    specTodayInstant now h m pm < (dayStart now : Int) + msPerDay := by
  unfold specTodayInstant
  have ha : (specHour24 h pm : Int) ≤ 23 := by exact_mod_cast specHour24_le h pm h2
  have hb : (m : Int) ≤ 59 := by exact_mod_cast hm
  have hc : (specHour24 h pm : Int) * 3600000 ≤ 23 * 3600000 := by
    have := specHour24_le h pm h2
    nlinarith
  have hd : (m : Int) * 60000 ≤ 59 * 60000 := by nlinarith
  have : (msPerDay : Int) = 86400000 := by norm_num [msPerDay]
  omega

lemma parseCore_valid (now : Nat) (h m : Nat) (pm : Bool) (h2 : h ≤ 12) :
    parseCore now (JSNum.num h, JSNum.num m, some (if pm then "PM" else "AM")) =
      some (JSNum.num (if specTodayInstant now h m pm ≤ (now : Int)
        then specTodayInstant now h m pm + (msPerDay : Int)
        else specTodayInstant now h m pm)) := by
  by_cases hc : h = 12
  · subst hc
    cases pm <;>
      simp [parseCore, jsSetHours, specTodayInstant, specHour24, JSNum.seq, JSNum.add,
        JSNum.le] <;>
      split_ifs <;> simp_all
  · have hne : ((h : Int) == 12) = false := by
      refine beq_eq_false_iff_ne.mpr ?_
      exact_mod_cast hc
    cases pm <;>
      simp [parseCore, jsSetHours, specTodayInstant, specHour24, JSNum.seq, JSNum.add,
        JSNum.le, hne, hc] <;>
      split_ifs <;> simp_all

lemma parseTaskTime_renderTime (now h m : Nat) (pm : Bool)
    (h1 : 1 ≤ h) (h2 : h ≤ 12) (hm : m ≤ 59) :
    parseTaskTime now (renderTime h m pm) =
      some (JSNum.num (if specTodayInstant now h m pm ≤ (now : Int)
        then specTodayInstant now h m pm + (msPerDay : Int)
        else specTodayInstant now h m pm)) := by
  have hi : h - 1 < 12 := by omega
  have hj : m < 60 := by omega
  have hp : parsedPieces (renderTime (h - 1 + 1) m pm) =
      (JSNum.num ((h - 1 + 1 : Nat) : Int), JSNum.num (m : Int),
        some (if pm then "PM" else "AM")) :=
    parsedPieces_renderTime ⟨h - 1, hi⟩ ⟨m, hj⟩ pm
  have he : h - 1 + 1 = h := by omega
  rw [he] at hp
  unfold parseTaskTime
  rw [hp]
  exact parseCore_valid now h m pm h2

/-- C3: for a task whose time field is a well-formed `H:MM AM|PM` string,
scheduling either returns no handle or returns a handle whose associated
instant is strictly after the current instant; and the parser advances the
date by one calendar day exactly when today's occurrence of the parsed time
is not strictly in the future. -/
theorem scheduleTaskNotification_future (platform : JSPlatform) (hasPermission : Bool)
    (now : Nat) (timeouts : TimeoutMap) (task : PlannerTask) (h m : Nat) (pm : Bool)
    (htime : task.taskTime = renderTime h m pm)
    (h1 : 1 ≤ h) (h2 : h ≤ 12) (hm : m ≤ 59) :
    ((scheduleTaskNotification platform hasPermission now timeouts task).handle = none ∨
      ∃ v : Int,
        (scheduleTaskNotification platform hasPermission now timeouts task).instant =
          some (JSNum.num v) ∧ (now : Int) < v) ∧
    (specTodayInstant now h m pm ≤ (now : Int) →
      parseTaskTime now task.taskTime =
        some (JSNum.num (specTodayInstant now h m pm + (msPerDay : Int)))) ∧
    ((now : Int) < specTodayInstant now h m pm →
      parseTaskTime now task.taskTime = some (JSNum.num (specTodayInstant now h m pm))) := by
  have hparse := parseTaskTime_renderTime now h m pm h1 h2 hm
  have hlb := specTodayInstant_lb now h m pm
  have hub := specTodayInstant_ub now h m pm h2 hm
  have hdu := lt_dayStart_add now
  have hdu2 : (now : Int) < (dayStart now : Int) + (msPerDay : Int) := by exact_mod_cast hdu
  have hfut : (now : Int) <
      (if specTodayInstant now h m pm ≤ (now : Int)
        then specTodayInstant now h m pm + (msPerDay : Int)
        else specTodayInstant now h m pm) := by
    split_ifs with hle
    · omega
    · omega
  refine ⟨?_, ?_, ?_⟩
  · cases hasPermission with
    | false => left; rfl
    | true =>
      unfold scheduleTaskNotification
      rw [htime, hparse]
      have hnotle :
          (JSNum.num (if specTodayInstant now h m pm ≤ (now : Int)
            then specTodayInstant now h m pm + (msPerDay : Int)
            else specTodayInstant now h m pm)).le (JSNum.num now) = false := by
        simp only [JSNum.le, decide_eq_false_iff_not]
        omega
      cases platform with
      | mobile =>
        right
        refine ⟨_, ?_, hfut⟩
        simp [hnotle]
      | web =>
        unfold scheduleWebNotification
        have hnotle2 :
            ((JSNum.num (if specTodayInstant now h m pm ≤ (now : Int)
              then specTodayInstant now h m pm + (msPerDay : Int)
              else specTodayInstant now h m pm)).sub (JSNum.num now)).le (JSNum.num 0) =
              false := by
          simp only [JSNum.sub, JSNum.le, decide_eq_false_iff_not]
          omega
        right
        refine ⟨_, ?_, hfut⟩
        simp [hnotle, hnotle2]
  · intro hle
    rw [htime, hparse, if_pos hle]
  · intro hlt
    rw [htime, hparse, if_neg (not_le.mpr hlt)]

/-- C3 witness: scheduling a concrete task timed "9:30 AM" on web at instant
0 with permission granted, plus the two roll-forward equations at that
instant. -/
theorem scheduleTaskNotification_future_witness :
    ((scheduleTaskNotification JSPlatform.web true 0 []
        { id := "t1", title := "Task", taskTime := "9:30 AM" }).handle = none ∨
      ∃ v : Int,
        (scheduleTaskNotification JSPlatform.web true 0 []
          { id := "t1", title := "Task", taskTime := "9:30 AM" }).instant =
            some (JSNum.num v) ∧ ((0 : Nat) : Int) < v) ∧
    (specTodayInstant 0 9 30 false ≤ ((0 : Nat) : Int) →
      parseTaskTime 0 (PlannerTask.taskTime { id := "t1", title := "Task", taskTime := "9:30 AM" }) =
        some (JSNum.num (specTodayInstant 0 9 30 false + (msPerDay : Int)))) ∧
    (((0 : Nat) : Int) < specTodayInstant 0 9 30 false →
      parseTaskTime 0 (PlannerTask.taskTime { id := "t1", title := "Task", taskTime := "9:30 AM" }) =
        some (JSNum.num (specTodayInstant 0 9 30 false))) :=
  scheduleTaskNotification_future JSPlatform.web true 0 []
    { id := "t1", title := "Task", taskTime := "9:30 AM" } 9 30 false
    (by decide) (by decide) (by decide) (by decide)

lemma extractFirst_eq_none_iff {p : PlannerTask → Bool} {l : List PlannerTask} :
    extractFirst p l = none ↔ ∀ t ∈ l, p t = false := by
  constructor
  · induction l with
    | nil => intro _ t ht; cases ht
    | cons a as ih =>
      intro hx t ht
      by_cases hp : p a
      · simp [extractFirst, hp] at hx
      · simp only [extractFirst, hp, Bool.false_eq_true, if_false, Option.map_eq_none'] at hx
        rcases List.mem_cons.mp ht with rfl | hmem
        · simpa using hp
        · exact ih hx t hmem
  · exact extractFirst_eq_none
  
lemma extractFirst_spec {p : PlannerTask → Bool} {l : List PlannerTask}
    {t : PlannerTask} {rest : List PlannerTask}
    (hx : extractFirst p l = some (t, rest)) :
    p t = true ∧ ∃ pre post, l = pre ++ t :: post ∧ rest = pre ++ post ∧
      ∀ x ∈ pre, p x = false := by
  induction l generalizing t rest with
  | nil => simp [extractFirst] at hx
  | cons a as ih =>
    by_cases hp : p a
    · rw [extractFirst, if_pos hp, Option.some_inj] at hx
      simp only [Prod.mk.injEq] at hx
      obtain ⟨rfl, rfl⟩ := hx
      exact ⟨hp, [], as, rfl, rfl, by simp⟩
    · rw [extractFirst, if_neg hp] at hx
      rcases Option.map_eq_some'.mp hx with ⟨⟨t', rest'⟩, hx', hmk⟩
      simp only [Prod.mk.injEq] at hmk
      obtain ⟨rfl, rfl⟩ := hmk
      rcases ih hx' with ⟨hpt, pre, post, hl, hrest, hpre⟩
      refine ⟨hpt, a :: pre, post, by rw [hl]; rfl, by rw [hrest]; rfl, ?_⟩
      intro x hxm
      rcases List.mem_cons.mp hxm with rfl | hxm
      · simpa using hp
      · exact hpre x hxm

/-- C1 counterexample: completing a task that holds a notification handle
moves it to the completed collection with the handle still present — the
field is not cleared (the reminder itself is cancelled, but
`task.notificationId` is never unset). -/
theorem completeTask_keeps_handle :
    ((completeTask 5
        { tasks := [{ id := "t1", title := "Task", taskTime := "9:30 AM",
                      notificationId := some "web_t1_0" }],
          completedTasks := [], timeouts := [("web_t1_0", JSNum.num 99)] }
        "t1").completedTasks.map PlannerTask.notificationId) = [some "web_t1_0"] ∧
    ((completeTask 5
        { tasks := [{ id := "t1", title := "Task", taskTime := "9:30 AM",
                      notificationId := some "web_t1_0" }],
          completedTasks := [], timeouts := [("web_t1_0", JSNum.num 99)] }
        "t1").completedTasks.map PlannerTask.notificationId) ≠ [none] := by decide

/-- C1 amended: under the store's standing invariants (pairwise distinct ids
in the active collection, active and completed disjoint by id), completing a
stored active task T removes it from the active collection and appends it
exactly once to the completed collection with the completion flag and
timestamp set and the notification handle RETAINED (the pending reminder is
cancelled but the field is not cleared); afterwards the collections are
again disjoint by identifier. -/
theorem completeTask_spec (now : Nat) (st : AppState) (t : PlannerTask)
    (hmem : t ∈ st.tasks)
    (hnd : (st.tasks.map PlannerTask.id).Nodup)
    (hdisj : ∀ a ∈ st.tasks, ∀ c ∈ st.completedTasks, a.id ≠ c.id) :
    (completeTask now st t.id).completedTasks =
      st.completedTasks ++ [{ t with completed := true, completedAt := some now }] ∧
    (∀ a ∈ (completeTask now st t.id).tasks, a.id ≠ t.id) ∧
    ((completeTask now st t.id).completedTasks.filter (fun c => c.id == t.id)).length = 1 ∧
    (completeTask now st t.id).tasks.length + 1 = st.tasks.length ∧
    (∀ a ∈ (completeTask now st t.id).tasks, a ∈ st.tasks) ∧
    (∀ a ∈ (completeTask now st t.id).tasks,
      ∀ c ∈ (completeTask now st t.id).completedTasks, a.id ≠ c.id) := by
  have hpt : (fun u : PlannerTask => u.id == t.id) t = true := by simp
  cases hres : extractFirst (fun u => u.id == t.id) st.tasks with
  | none =>
    exact absurd (extractFirst_eq_none_iff.mp hres t hmem) (by simp)
  | some pr =>
    obtain ⟨t', rest⟩ := pr
    rcases extractFirst_spec hres with ⟨hpt', pre, post, hl, hrest, hpre⟩
    have ht'mem : t' ∈ st.tasks := by
      rw [hl]; exact List.mem_append_right _ (List.mem_cons_self _ _)
    have hid : t'.id = t.id := by simpa using hpt'
    have ht' : t' = t :=
      List.inj_on_of_nodup_map hnd ht'mem hmem hid
    have ht2 := ht'.symm
    subst ht2
    have hnotin : t.id ∉ (pre ++ post).map PlannerTask.id := by
      have hmap : (st.tasks.map PlannerTask.id) =
          pre.map PlannerTask.id ++ t.id :: post.map PlannerTask.id := by
        rw [hl]; simp
      rw [hmap] at hnd
      have := List.nodup_middle.mp hnd
      rcases List.nodup_cons.mp this with ⟨hni, -⟩
      simpa using hni
    have hrestid : ∀ a ∈ rest, a.id ≠ t.id := by
      intro a ha hcontra
      apply hnotin
      rw [← hcontra]
      exact List.mem_map_of_mem _ (hrest ▸ ha)
    have hrestmem : ∀ a ∈ rest, a ∈ st.tasks := by
      intro a ha
      rw [hrest] at ha
      rw [hl]
      rcases List.mem_append.mp ha with h | h
      · exact List.mem_append_left _ h
      · exact List.mem_append_right _ (List.mem_cons_of_mem _ h)
    have hstate : completeTask now st t.id =
        { tasks := rest,
          completedTasks := st.completedTasks ++
            [{ t with completed := true, completedAt := some now }],
          timeouts :=
            match ({ t with completed := true, completedAt := some now
              : PlannerTask }).notificationId with
            | some nid => if nid ≠ "" then cancelNotification nid st.timeouts else st.timeouts
            | none => st.timeouts } := by
      unfold completeTask
      rw [hres]
    rw [hstate]
    refine ⟨rfl, hrestid, ?_, ?_, hrestmem, ?_⟩
    · rw [List.filter_append]
      have hold : st.completedTasks.filter (fun c => c.id == t.id) = [] := by
        rw [List.filter_eq_nil_iff]
        intro c hc
        simp only [beq_iff_eq]
        exact fun hcid => (hdisj t hmem c hc) hcid.symm
      rw [hold]
      simp
    · rw [hl, hrest]
      simp
      omega
    · intro a ha c hc
      rcases List.mem_append.mp hc with h | h
      · exact hdisj a (hrestmem a ha) c h
      · rcases List.mem_singleton.mp h with rfl
        simpa using hrestid a ha

/-- C1 witness: completing the only stored task (which holds a handle) in a
concrete store satisfying the invariants. -/
theorem completeTask_spec_witness :
    (completeTask 5
        { tasks := [{ id := "t1", title := "Task", taskTime := "9:30 AM",
                      notificationId := some "web_t1_0" }],
          completedTasks := [], timeouts := [("web_t1_0", JSNum.num 99)] }
        (PlannerTask.id { id := "t1", title := "Task", taskTime := "9:30 AM",
                          notificationId := some "web_t1_0" })).completedTasks =
      [] ++ [{ id := "t1", title := "Task", taskTime := "9:30 AM",
               notificationId := some "web_t1_0", completed := true,
               completedAt := some 5 }] ∧
    (∀ a ∈ (completeTask 5
        { tasks := [{ id := "t1", title := "Task", taskTime := "9:30 AM",
                      notificationId := some "web_t1_0" }],
          completedTasks := [], timeouts := [("web_t1_0", JSNum.num 99)] }
        (PlannerTask.id { id := "t1", title := "Task", taskTime := "9:30 AM",
                          notificationId := some "web_t1_0" })).tasks,
      a.id ≠ PlannerTask.id { id := "t1", title := "Task", taskTime := "9:30 AM",
                              notificationId := some "web_t1_0" }) ∧
    ((completeTask 5
        { tasks := [{ id := "t1", title := "Task", taskTime := "9:30 AM",
                      notificationId := some "web_t1_0" }],
          completedTasks := [], timeouts := [("web_t1_0", JSNum.num 99)] }
        (PlannerTask.id { id := "t1", title := "Task", taskTime := "9:30 AM",
                          notificationId := some "web_t1_0" })).completedTasks.filter
      (fun c => c.id == PlannerTask.id { id := "t1", title := "Task",
                                         taskTime := "9:30 AM",
                                         notificationId := some "web_t1_0" })).length = 1 := by
  have hw := completeTask_spec 5
    { tasks := [{ id := "t1", title := "Task", taskTime := "9:30 AM",
                  notificationId := some "web_t1_0" }],
      completedTasks := [], timeouts := [("web_t1_0", JSNum.num 99)] }
    { id := "t1", title := "Task", taskTime := "9:30 AM",
      notificationId := some "web_t1_0" }
    (by decide)
    (by decide)
    (fun a _ c hc => absurd hc (List.not_mem_nil c))
  exact ⟨hw.1, hw.2.1, hw.2.2.1⟩
